import Mathlib

/-!
Verification of the sophia_rs streaming transfer layer.

The repository contains two generations of the same streaming protocol:

* `src/sophia/src/streams.rs` (older): `TripleSource::into_sink`, the
  `WhereFrom {Upstream, Downstream}` provenance wrapper, the
  `AsUpstream` / `AsDownstream` conversions, the `UnwrapWhereFrom`
  trait (`unwrap_upstream` / `unwrap_downstream`), the `WrapAsOks`
  adapter, and the no-op sink `impl TripleSink for ()` with error type `()`.
* `src/sophia/src/triple/stream.rs` (newer): `TripleSource::in_sink`,
  the `StreamError {SourceError, SinkError}` provenance wrapper (declared
  in its `_error` submodule), the `AsTripleSource` adapter
  (`as_triple_source`, error type `Infallible`), and the no-op sink
  `impl TripleSink for ()` with error type `Infallible`.

The embedding below is a shallow one:

* A finite triple source (a Rust `Iterator<Item = Result<T, E>>`) is a
  `List (Except ε τ)`; triples themselves are opaque (a type parameter),
  matching the spec, which treats terms as opaque at this layer.
* A sink (`TripleSink` with `&mut self` methods) is a record of pure
  state-passing functions: `feed : σ → τ → σ × Option ε` (the returned
  `Option ε` is `Result<(), E>`; the state component models the `&mut`
  update, which happens even when an error is returned) and
  `finish : σ → σ × Except ε ω`.
* Rust `Infallible` is `Empty`; Rust `()` is `Unit`.
* The drivers return the final sink state together with the
  `Result<Outcome, _>` value, modelling the `&mut` borrow of the sink.
* To state the call-counting and temporal claims, each driver also has a
  traced variant (`in_sinkT`, `into_sinkT`) that additionally records the
  sequence of observable events (source pulls, feed calls, finish calls);
  a lemma proves the traced variant projects to the plain embedding.
-/

namespace Sophia

universe u

/-- Rust `Result::map_err`, used by `in_sink` as
`tr.map_err(SourceError)?` and `sink.feed(&t).map_err(SinkError)?`. -/
def map_err {α ε ε2 : Type} (f : ε → ε2) : Except ε α → Except ε2 α
  | Except.ok v => Except.ok v
  | Except.error e => Except.error (f e)

/-- The provenance wrapper of `streams.rs`:
`enum WhereFrom<U, D> { Upstream(U), Downstream(D) }`. -/
inductive WhereFrom (U D : Type) : Type where
  | Upstream : U → WhereFrom U D
  | Downstream : D → WhereFrom U D
deriving DecidableEq, Repr

/-- Modelled from the spec: the provenance wrapper used by
`triple/stream.rs` is declared in its `_error` submodule, which is not
among the source files; its two constructors `SourceError` and
`SinkError` are used directly by `in_sink`, and the spec describes it as
"a tagged union over {source error, sink error}; exactly one variant is
populated per failure". -/
inductive StreamError (U D : Type) : Type where
  | SourceError : U → StreamError U D
  | SinkError : D → StreamError U D
deriving DecidableEq, Repr

/-- The `AsUpstream::as_upstream` conversion from `streams.rs`: tag an error as coming
from the source, leaving `Ok` values unchanged. -/
def as_upstream {T E F : Type} : Except E T → Except (WhereFrom E F) T
  | Except.ok v => Except.ok v
  | Except.error e => Except.error (WhereFrom.Upstream e)

/-- The `AsDownstream::as_downstream` conversion from `streams.rs`: tag an error as
coming from the sink, leaving `Ok` values unchanged. -/
def as_downstream {T E F : Type} : Except E T → Except (WhereFrom F E) T
  | Except.ok v => Except.ok v
  | Except.error e => Except.error (WhereFrom.Downstream e)

/-- Rust `UnwrapWhereFrom::unwrap_upstream` from `streams.rs`: keep `Ok`,
panic (modelled as `none`) on an `Upstream` error, and return a
`Downstream` error as a plain error. -/
def unwrap_upstream {T U D : Type} : Except (WhereFrom U D) T → Option (Except D T)
  | Except.ok v => some (Except.ok v)
  | Except.error (WhereFrom.Upstream _) => none
  | Except.error (WhereFrom.Downstream e) => some (Except.error e)

/-- Rust `UnwrapWhereFrom::unwrap_downstream` from `streams.rs`: keep `Ok`,
return an `Upstream` error as a plain error, and panic (modelled as
`none`) on a `Downstream` error. -/
def unwrap_downstream {T U D : Type} : Except (WhereFrom U D) T → Option (Except U T)
  | Except.ok v => some (Except.ok v)
  | Except.error (WhereFrom.Upstream e) => some (Except.error e)
  | Except.error (WhereFrom.Downstream _) => none

/-- A triple sink (`TripleSink` in both generations), as pure
state-passing functions over a sink-state type `σ`.
`feed` is `fn feed(&mut self, t: &T) -> Result<(), Error>`: it always
updates the state (the `&mut` borrow) and optionally reports an error.
`finish` is `fn finish(&mut self) -> Result<Outcome, Error>`. -/
structure TripleSink (τ ε ω σ : Type) : Type where
  feed : σ → τ → σ × Option ε
  finish : σ → σ × Except ε ω

/-- The no-op sink of `triple/stream.rs`: `impl TripleSink for ()` with
`Outcome = ()` and `Error = Infallible`; `feed` and `finish` both return
`Ok`. -/
def unitSink {τ : Type} : TripleSink τ Empty Unit Unit where
  feed := fun s _ => (s, none)
  finish := fun s => (s, Except.ok ())

/-- The no-op sink of `streams.rs`: `impl TripleSink for ()` with
`Outcome = ()` and `Error = ()`; `feed` and `finish` both return `Ok`. -/
def unitSink0 {τ : Type} : TripleSink τ Unit Unit Unit where
  feed := fun s _ => (s, none)
  finish := fun s => (s, Except.ok ())

/-- Rust `TripleSource::in_sink` from `triple/stream.rs`, for the blanket
implementation over iterators of results (a finite iterator is a list):

    for tr in self {
        let t = tr.map_err(SourceError)?;
        sink.feed(&t).map_err(SinkError)?;
    }
    Ok(sink.finish().map_err(SinkError)?)

The returned pair is (final sink state, result). -/
def in_sink {τ ε ε2 ω σ : Type} :
    List (Except ε τ) → TripleSink τ ε2 ω σ → σ → σ × Except (StreamError ε ε2) ω
  | [], k, s =>
    let fr := k.finish s
    (fr.1, map_err StreamError.SinkError fr.2)
  | tr :: rest, k, s =>
    match tr with
    | Except.error e => (s, Except.error (StreamError.SourceError e))
    | Except.ok t =>
      let fd := k.feed s t
      match fd.2 with
      | some e => (fd.1, Except.error (StreamError.SinkError e))
      | none => in_sink rest k fd.1

/-- Rust `TripleSource::into_sink` from `streams.rs`, for the blanket
implementation over iterators of results:

    for tr in self {
        let t = tr.as_upstream()?;
        sink.feed(&t).as_downstream()?;
    }
    return sink.finish().as_downstream()

The returned pair is (final sink state, result). -/
def into_sink {τ ε ε2 ω σ : Type} :
    List (Except ε τ) → TripleSink τ ε2 ω σ → σ → σ × Except (WhereFrom ε ε2) ω
  | [], k, s =>
    let fr := k.finish s
    (fr.1, as_downstream fr.2)
  | tr :: rest, k, s =>
    match tr with
    | Except.error e => (s, Except.error (WhereFrom.Upstream e))
    | Except.ok t =>
      let fd := k.feed s t
      match fd.2 with
      | some e => (fd.1, Except.error (WhereFrom.Downstream e))
      | none => into_sink rest k fd.1

/-- An observable event of a driver run: a pull on the source's iterator,
a call to the sink's `feed` with the pulled triple, or a call to the
sink's `finish`. -/
inductive Event (τ : Type) : Type where
  | pull : Event τ
  | feedCall : τ → Event τ
  | finishCall : Event τ

/-- Recognize a `finishCall` event. -/
def isFinishEv {τ : Type} : Event τ → Bool
  | Event.finishCall => true
  | _ => false

/-- Recognize a `feedCall` event. -/
def isFeedEv {τ : Type} : Event τ → Bool
  | Event.feedCall _ => true
  | _ => false

/-- Recognize a `pull` event. -/
def isPullEv {τ : Type} : Event τ → Bool
  | Event.pull => true
  | _ => false

/-- Traced variant of `in_sink`: same computation, but the first
component records the sequence of events (each loop iteration pulls the
iterator once; the final iteration pulls `None` and is followed by the
`finish` call). -/
def in_sinkT {τ ε ε2 ω σ : Type} :
    List (Except ε τ) → TripleSink τ ε2 ω σ → σ →
      List (Event τ) × σ × Except (StreamError ε ε2) ω
  | [], k, s =>
    let fr := k.finish s
    ([Event.pull, Event.finishCall], fr.1, map_err StreamError.SinkError fr.2)
  | tr :: rest, k, s =>
    match tr with
    | Except.error e => ([Event.pull], s, Except.error (StreamError.SourceError e))
    | Except.ok t =>
      let fd := k.feed s t
      match fd.2 with
      | some e =>
        ([Event.pull, Event.feedCall t], fd.1, Except.error (StreamError.SinkError e))
      | none =>
        let r := in_sinkT rest k fd.1
        (Event.pull :: Event.feedCall t :: r.1, r.2)

/-- Traced variant of `into_sink`, with the same event instrumentation as
`in_sinkT`. -/
def into_sinkT {τ ε ε2 ω σ : Type} :
    List (Except ε τ) → TripleSink τ ε2 ω σ → σ →
      List (Event τ) × σ × Except (WhereFrom ε ε2) ω
  | [], k, s =>
    let fr := k.finish s
    ([Event.pull, Event.finishCall], fr.1, as_downstream fr.2)
  | tr :: rest, k, s =>
    match tr with
    | Except.error e => ([Event.pull], s, Except.error (WhereFrom.Upstream e))
    | Except.ok t =>
      let fd := k.feed s t
      match fd.2 with
      | some e =>
        ([Event.pull, Event.feedCall t], fd.1, Except.error (WhereFrom.Downstream e))
      | none =>
        let r := into_sinkT rest k fd.1
        (Event.pull :: Event.feedCall t :: r.1, r.2)

/-- The sink state after feeding the triples of `ts` in order. -/
def feedFold {τ ε ω σ : Type} (k : TripleSink τ ε ω σ) (s : σ) (ts : List τ) : σ :=
  ts.foldl (fun s1 t => (k.feed s1 t).1) s

/-- The event sequence of a run that pulls and successfully feeds each
triple of `ts` in order. -/
def pullFeedTrace {τ : Type} : List τ → List (Event τ)
  | [] => []
  | t :: ts => Event.pull :: Event.feedCall t :: pullFeedTrace ts

/-- Rust `AsTripleSource::as_triple_source` from `triple/stream.rs`: wrap each
item of a plain iterator of triples in `Ok`; the error type of the
resulting source is `Infallible` (`Empty`). -/
def as_triple_source {τ : Type} (l : List τ) : List (Except Empty τ) :=
  l.map Except.ok

/-- Rust `WrapAsOks::wrap_as_oks` from `streams.rs`: wrap each item of a plain
iterator in `Ok`; the error type of the resulting source is `()`. -/
def wrap_as_oks {τ : Type} (l : List τ) : List (Except Unit τ) :=
  l.map Except.ok

/-- Does a driver result hold a source-tagged (`SourceError`) error? -/
def isSourceErr {α β ω : Type} : Except (StreamError α β) ω → Bool
  | Except.error (StreamError.SourceError _) => true
  | _ => false

/-- The variant renaming between the two generations of the provenance
wrapper: `Upstream ↦ SourceError`, `Downstream ↦ SinkError`. -/
def streamErrorOfWhereFrom {U D : Type} : WhereFrom U D → StreamError U D
  | WhereFrom.Upstream e => StreamError.SourceError e
  | WhereFrom.Downstream e => StreamError.SinkError e

/-- Modelled from the spec: the external `MutableGraph` collaborator
(the `graph` module is not among the source files). Its native insert
operation "inserts this triple, returning whether it was newly added or
reports a mutation error". -/
structure MutableGraph (τ γ ε : Type) : Type where
  insert : γ → τ → Except ε (Bool × γ)

/-- Modelled from the spec: `MutableGraph::inserter` (the `graph` module
is not among the source files). It "wraps an external mutable graph's
native insert operation; its outcome is the count of triples actually
inserted": feeding calls `insert` and counts newly added triples,
finishing returns the count. -/
def inserter {τ γ ε : Type} (G : MutableGraph τ γ ε) : TripleSink τ ε Nat (γ × Nat) where
  feed := fun gs t =>
    match G.insert gs.1 t with
    | Except.ok bg => ((bg.2, if bg.1 then gs.2 + 1 else gs.2), none)
    | Except.error e => (gs, some e)
  finish := fun gs => (gs, Except.ok gs.2)

/-- Rust `TripleSource::in_graph` from `triple/stream.rs`, a provided method:
`self.in_sink(&mut graph.inserter())`. The inserter starts with the
graph's current state and a zero count. -/
def in_graph {τ ε ε2 γ : Type} (items : List (Except ε τ)) (G : MutableGraph τ γ ε2)
    (g : γ) : (γ × Nat) × Except (StreamError ε ε2) Nat :=
  in_sink items (inserter G) (g, 0)

/-- Rust `TripleSource::into_graph` from `streams.rs`, a provided method:
`self.into_sink(&mut graph.inserter())`. -/
def into_graph {τ ε ε2 γ : Type} (items : List (Except ε τ)) (G : MutableGraph τ γ ε2)
    (g : γ) : (γ × Nat) × Except (WhereFrom ε ε2) Nat :=
  into_sink items (inserter G) (g, 0)

/-- A sink over `Nat` triples that counts its feed calls and reports the
count as its outcome; it never fails. Used to instantiate theorems with
hypotheses at concrete inputs. -/
def countSink : TripleSink Nat Unit Nat Nat where
  feed := fun s _ => (s + 1, none)
  finish := fun s => (s, Except.ok s)

/-- A sink over `Nat` triples whose `feed` always fails. Used to
instantiate theorems with hypotheses at concrete inputs. -/
def alwaysFailSink : TripleSink Nat Unit Unit Unit where
  feed := fun s _ => (s, some ())
  finish := fun s => (s, Except.ok ())

/-! ### Helper lemmas -/

/-- The traced driver projects to the plain `in_sink` embedding. -/
theorem in_sinkT_sound {τ ε ε2 ω σ : Type} :
    ∀ (items : List (Except ε τ)) (k : TripleSink τ ε2 ω σ) (s : σ),
      (in_sinkT items k s).2 = in_sink items k s := by
  intro items
  induction items with
  | nil => intro k s; rfl
  | cons tr rest ih =>
    intro k s
    cases tr with
    | error e => rfl
    | ok t =>
      simp only [in_sinkT, in_sink]
      cases h : (k.feed s t).2 with
      | some e => rfl
      | none => simpa using ih k (k.feed s t).1

/-- The traced old driver projects to the plain `into_sink` embedding. -/
theorem into_sinkT_sound {τ ε ε2 ω σ : Type} :
    ∀ (items : List (Except ε τ)) (k : TripleSink τ ε2 ω σ) (s : σ),
      (into_sinkT items k s).2 = into_sink items k s := by
  intro items
  induction items with
  | nil => intro k s; rfl
  | cons tr rest ih =>
    intro k s
    cases tr with
    | error e => rfl
    | ok t =>
      simp only [into_sinkT, into_sink]
      cases h : (k.feed s t).2 with
      | some e => rfl
      | none => simpa using ih k (k.feed s t).1

/-- Unfolding `feedFold` over a cons. -/
theorem feedFold_cons {τ ε ω σ : Type} (k : TripleSink τ ε ω σ) (s : σ) (t : τ)
    (ts : List τ) : feedFold k s (t :: ts) = feedFold k (k.feed s t).1 ts := rfl

/-- A run over a prefix of successfully fed `Ok` triples: the driver
pulls and feeds each one in order, then continues with the rest of the
items from the folded sink state. The hypothesis only requires `feed` to
succeed at the states actually reached. -/
theorem in_sinkT_ok_run {τ ε ε2 ω σ : Type} :
    ∀ (ts : List τ) (rest : List (Except ε τ)) (k : TripleSink τ ε2 ω σ) (s : σ),
      (∀ pre t post, ts = pre ++ t :: post → (k.feed (feedFold k s pre) t).2 = none) →
      in_sinkT (ts.map Except.ok ++ rest) k s =
        (pullFeedTrace ts ++ (in_sinkT rest k (feedFold k s ts)).1,
          (in_sinkT rest k (feedFold k s ts)).2) := by
  intro ts
  induction ts with
  | nil =>
    intro rest k s _
    simp [pullFeedTrace, feedFold]
  | cons t ts ih =>
    intro rest k s hfeed
    have h0 : (k.feed s t).2 = none := by
      have := hfeed [] t ts rfl
      simpa [feedFold] using this
    have hrec := ih rest k (k.feed s t).1 (by
      intro pre u post hsplit
      have := hfeed (t :: pre) u post (by rw [hsplit]; rfl)
      simpa [feedFold_cons] using this)
    simp only [List.map_cons, List.cons_append, in_sinkT]
    rw [h0]
    simp only [List.append_eq]
    rw [hrec]
    simp [pullFeedTrace, feedFold_cons]

/-- The trace `pullFeedTrace ts` contains one pull and one feed per triple, in the
triples' order, and no finish call. -/
theorem pullFeedTrace_counts {τ : Type} :
    ∀ ts : List τ,
      (pullFeedTrace ts).countP isFinishEv = 0 ∧
      (pullFeedTrace ts).countP isFeedEv = ts.length ∧
      (pullFeedTrace ts).countP isPullEv = ts.length := by
  intro ts
  induction ts with
  | nil => simp [pullFeedTrace]
  | cons t ts ih =>
    simp [pullFeedTrace, List.countP_cons, isFinishEv, isFeedEv, isPullEv, ih.1,
      ih.2.1, ih.2.2]

/-- Renaming the old provenance wrapper into the new one relates the two
drivers pointwise. -/
theorem into_sink_eq_rename {τ ε ε2 ω σ : Type} :
    ∀ (items : List (Except ε τ)) (k : TripleSink τ ε2 ω σ) (s : σ),
      (into_sink items k s).1 = (in_sink items k s).1 ∧
      map_err streamErrorOfWhereFrom (into_sink items k s).2 = (in_sink items k s).2 := by
  intro items
  induction items with
  | nil =>
    intro k s
    refine ⟨rfl, ?_⟩
    simp only [into_sink, in_sink]
    cases (k.finish s).2 <;> rfl
  | cons tr rest ih =>
    intro k s
    cases tr with
    | error e => exact ⟨rfl, rfl⟩
    | ok t =>
      simp only [into_sink, in_sink]
      cases h : (k.feed s t).2 with
      | some e => exact ⟨rfl, rfl⟩
      | none => simpa using ih k (k.feed s t).1

/-- The traces of the two drivers coincide. -/
theorem into_sinkT_trace_eq {τ ε ε2 ω σ : Type} :
    ∀ (items : List (Except ε τ)) (k : TripleSink τ ε2 ω σ) (s : σ),
      (into_sinkT items k s).1 = (in_sinkT items k s).1 := by
  intro items
  induction items with
  | nil => intro k s; rfl
  | cons tr rest ih =>
    intro k s
    cases tr with
    | error e => rfl
    | ok t =>
      simp only [into_sinkT, in_sinkT]
      cases h : (k.feed s t).2 with
      | some e => rfl
      | none => simpa using ih k (k.feed s t).1

/-- The inverse variant renaming: `SourceError ↦ Upstream`,
`SinkError ↦ Downstream`. -/
def whereFromOfStreamError {U D : Type} : StreamError U D → WhereFrom U D
  | StreamError.SourceError e => WhereFrom.Upstream e
  | StreamError.SinkError e => WhereFrom.Downstream e

/-- The old driver is the new driver with its error renamed back into the
old wrapper. -/
theorem into_sink_eq {τ ε ε2 ω σ : Type} :
    ∀ (items : List (Except ε τ)) (k : TripleSink τ ε2 ω σ) (s : σ),
      into_sink items k s =
        ((in_sink items k s).1, map_err whereFromOfStreamError (in_sink items k s).2) := by
  intro items
  induction items with
  | nil =>
    intro k s
    simp only [into_sink, in_sink]
    cases (k.finish s).2 <;> rfl
  | cons tr rest ih =>
    intro k s
    cases tr with
    | error e => rfl
    | ok t =>
      simp only [into_sink, in_sink]
      cases h : (k.feed s t).2 with
      | some e => rfl
      | none => simpa using ih k (k.feed s t).1

/-- Draining any sequence of `Ok`-wrapped triples into the no-op sink of
`triple/stream.rs` succeeds with the unit outcome. -/
theorem unit_run (τ ε : Type) :
    ∀ ts : List τ,
      in_sink (ts.map Except.ok : List (Except ε τ)) unitSink () = ((), Except.ok ()) := by
  intro ts
  induction ts with
  | nil => rfl
  | cons t ts ih => simpa [in_sink, unitSink] using ih

/-- Draining any sequence of `Ok`-wrapped triples into the no-op sink of
`streams.rs` succeeds with the unit outcome. -/
theorem unit0_run (τ ε : Type) :
    ∀ ts : List τ,
      into_sink (ts.map Except.ok : List (Except ε τ)) unitSink0 () = ((), Except.ok ()) := by
  intro ts
  induction ts with
  | nil => rfl
  | cons t ts ih => simpa [into_sink, unitSink0] using ih

/-- When the source error type is uninhabited, no driver result can be a
source-tagged error. -/
theorem isSourceErr_empty (β ω : Type) :
    ∀ r : Except (StreamError Empty β) ω, isSourceErr r = false := by
  intro r
  cases r with
  | ok v => rfl
  | error se =>
    cases se with
    | SourceError e => exact e.elim
    | SinkError e => rfl

/-- When every source item is `Ok`, the driver never returns a
source-tagged error, whatever the source error type. -/
theorem in_sink_ok_items_no_source (τ ε ε2 ω σ : Type) :
    ∀ (l : List τ) (k : TripleSink τ ε2 ω σ) (s : σ),
      isSourceErr (in_sink (l.map Except.ok : List (Except ε τ)) k s).2 = false := by
  intro l
  induction l with
  | nil =>
    intro k s
    simp only [List.map_nil, in_sink]
    cases (k.finish s).2 <;> rfl
  | cons t l ih =>
    intro k s
    simp only [List.map_cons, in_sink]
    cases h : (k.feed s t).2 with
    | some e => simp [h, isSourceErr]
    | none => simpa [h] using ih k (k.feed s t).1

/-- After a `finishCall` event, a trace contains no further events. -/
def afterFinishEmpty {τ : Type} : List (Event τ) → Bool
  | [] => true
  | Event.finishCall :: rest => rest.isEmpty
  | _ :: rest => afterFinishEmpty rest

/-- The temporal invariant of a driver run over a source of `n` items:
`finish` is called at most once; nothing (in particular no `feed`)
happens after a `finish`; and if `finish` is called at all, then every
item was pulled first (`n` item pulls plus the final exhaustion pull). -/
def driverInvariant {τ : Type} (n : Nat) (evs : List (Event τ)) : Bool :=
  decide (evs.countP isFinishEv ≤ 1) &&
  afterFinishEmpty evs &&
  (!(evs.any isFinishEv) || decide (evs.countP isPullEv = n + 1))

/-- Every run of the (traced) new-generation driver satisfies the
temporal invariant. -/
theorem in_sinkT_invariant {τ ε ε2 ω σ : Type} :
    ∀ (items : List (Except ε τ)) (k : TripleSink τ ε2 ω σ) (s : σ),
      driverInvariant items.length (in_sinkT items k s).1 = true := by
  intro items
  induction items with
  | nil => intro k s; rfl
  | cons tr rest ih =>
    intro k s
    cases tr with
    | error e => rfl
    | ok t =>
      simp only [in_sinkT]
      cases h : (k.feed s t).2 with
      | some e => rfl
      | none =>
        have ihh := ih k (k.feed s t).1
        revert ihh
        generalize (in_sinkT rest k (k.feed s t).1).1 = evs
        intro ihh
        simp only [driverInvariant, Bool.and_eq_true, decide_eq_true_eq, Bool.or_eq_true,
          Bool.not_eq_true', List.any_eq_false] at ihh
        obtain ⟨⟨ih1, ih2⟩, ih3⟩ := ihh
        simp only [driverInvariant, Bool.and_eq_true, decide_eq_true_eq, Bool.or_eq_true,
          Bool.not_eq_true', List.any_eq_false]
        refine ⟨⟨?_, ?_⟩, ?_⟩
        · simpa [List.countP_cons, isFinishEv] using ih1
        · simpa [afterFinishEmpty] using ih2
        · rcases ih3 with h3 | h3
          · left
            intro x hx
            simp only [List.mem_cons] at hx
            rcases hx with hx | hx | hx
            · rw [hx]; simp [isFinishEv]
            · rw [hx]; simp [isFinishEv]
            · exact h3 x hx
          · right
            simp [List.countP_cons, isPullEv, isFinishEv, h3]

/-! ### Claims -/

/-- Claim C1: for a finite source whose every pull yields a triple
successfully and whose sink accepts every feed, the driver pulls and
feeds each triple exactly once, in the source's order, then calls
`finish` exactly once and returns its outcome (mapped into the success
value, or a sink-tagged error if `finish` itself fails); the old driver
`into_sink` behaves identically with the `Downstream` tag. -/
theorem claim_C1 (τ ε ε2 ω σ : Type) (ts : List τ) (k : TripleSink τ ε2 ω σ) (s : σ)
    (hfeed : ∀ (s1 : σ) (t : τ), (k.feed s1 t).2 = none) :
    (in_sinkT (ts.map Except.ok : List (Except ε τ)) k s).1 =
      pullFeedTrace ts ++ [Event.pull, Event.finishCall] ∧
    (in_sinkT (ts.map Except.ok : List (Except ε τ)) k s).1.countP isFeedEv = ts.length ∧
    (in_sinkT (ts.map Except.ok : List (Except ε τ)) k s).1.countP isFinishEv = 1 ∧
    in_sink (ts.map Except.ok : List (Except ε τ)) k s =
      ((k.finish (feedFold k s ts)).1,
        map_err StreamError.SinkError (k.finish (feedFold k s ts)).2) ∧
    into_sink (ts.map Except.ok : List (Except ε τ)) k s =
      ((k.finish (feedFold k s ts)).1, as_downstream (k.finish (feedFold k s ts)).2) := by
  have hrun := in_sinkT_ok_run ts ([] : List (Except ε τ)) k s
    (fun pre t post _ => hfeed (feedFold k s pre) t)
  rw [List.append_nil] at hrun
  have h1 : in_sinkT (ts.map Except.ok : List (Except ε τ)) k s =
      (pullFeedTrace ts ++ [Event.pull, Event.finishCall],
        (k.finish (feedFold k s ts)).1,
        map_err StreamError.SinkError (k.finish (feedFold k s ts)).2) := by
    rw [hrun]; rfl
  have hsink : in_sink (ts.map Except.ok : List (Except ε τ)) k s =
      ((k.finish (feedFold k s ts)).1,
        map_err StreamError.SinkError (k.finish (feedFold k s ts)).2) := by
    rw [← in_sinkT_sound, h1]
  refine ⟨by rw [h1], ?_, ?_, hsink, ?_⟩
  · rw [h1]
    simp [List.countP_append, (pullFeedTrace_counts ts).2.1, isFeedEv, List.countP_cons]
  · rw [h1]
    simp [List.countP_append, (pullFeedTrace_counts ts).1, isFinishEv, List.countP_cons]
  · rw [into_sink_eq, hsink]
    cases (k.finish (feedFold k s ts)).2 <;> rfl

/-- Claim C1 witness: draining `[10, 20]` (wrapped in `Ok`) into the
counting sink feeds twice and succeeds with outcome 2. -/
theorem claim_C1_witness :
    in_sink ([10, 20].map Except.ok : List (Except Unit Nat)) countSink 0 =
      (2, Except.ok 2) := by
  have h := claim_C1 Nat Unit Unit Nat Nat [10, 20] countSink 0 (fun s1 t => rfl)
  exact h.2.2.2.1.trans rfl

/-- Claim C2: when the source fails on its k-th pull (after k-1 `Ok`
items, with a sink that accepts every feed), the driver feeds exactly the
k-1 earlier triples, performs no feed for the failing step, never calls
`finish`, stops (no pulls beyond the failing one), and returns the
source's error tagged `SourceError` (new driver) / `Upstream` (old
driver). -/
theorem claim_C2 (τ ε ε2 ω σ : Type) (ts : List τ) (e : ε) (rest : List (Except ε τ))
    (k : TripleSink τ ε2 ω σ) (s : σ)
    (hfeed : ∀ (s1 : σ) (t : τ), (k.feed s1 t).2 = none) :
    in_sinkT (ts.map Except.ok ++ Except.error e :: rest) k s =
      (pullFeedTrace ts ++ [Event.pull], feedFold k s ts,
        Except.error (StreamError.SourceError e)) ∧
    (in_sinkT (ts.map Except.ok ++ Except.error e :: rest) k s).1.countP isFeedEv =
      ts.length ∧
    (in_sinkT (ts.map Except.ok ++ Except.error e :: rest) k s).1.countP isFinishEv = 0 ∧
    (in_sinkT (ts.map Except.ok ++ Except.error e :: rest) k s).1.countP isPullEv =
      ts.length + 1 ∧
    in_sink (ts.map Except.ok ++ Except.error e :: rest) k s =
      (feedFold k s ts, Except.error (StreamError.SourceError e)) ∧
    into_sink (ts.map Except.ok ++ Except.error e :: rest) k s =
      (feedFold k s ts, Except.error (WhereFrom.Upstream e)) := by
  have hrun := in_sinkT_ok_run ts (Except.error e :: rest) k s
    (fun pre t post _ => hfeed (feedFold k s pre) t)
  have h1 : in_sinkT (ts.map Except.ok ++ Except.error e :: rest) k s =
      (pullFeedTrace ts ++ [Event.pull], feedFold k s ts,
        Except.error (StreamError.SourceError e)) := by
    rw [hrun]; rfl
  have hsink : in_sink (ts.map Except.ok ++ Except.error e :: rest) k s =
      (feedFold k s ts, Except.error (StreamError.SourceError e)) := by
    rw [← in_sinkT_sound, h1]
  refine ⟨h1, ?_, ?_, ?_, hsink, ?_⟩
  · rw [h1]
    simp [List.countP_append, (pullFeedTrace_counts ts).2.1, isFeedEv, List.countP_cons]
  · rw [h1]
    simp [List.countP_append, (pullFeedTrace_counts ts).1, isFinishEv, List.countP_cons]
  · rw [h1]
    simp [List.countP_append, (pullFeedTrace_counts ts).2.2, isPullEv, List.countP_cons]
  · rw [into_sink_eq, hsink]
    rfl

/-- Claim C2 witness: a source yielding `Ok 3` then an error makes the
driver feed once and return the source-tagged error. -/
theorem claim_C2_witness :
    in_sink ([Except.ok 3, Except.error ()] : List (Except Unit Nat)) countSink 0 =
      (1, Except.error (StreamError.SourceError ())) := by
  have h := claim_C2 Nat Unit Unit Nat Nat [3] () [] countSink 0 (fun s1 t => rfl)
  exact h.2.2.2.2.1.trans rfl

/-- Claim C3: when the sink's `feed` fails on the k-th triple (after
accepting the first k-1), the driver stops after exactly k feed calls,
never calls `finish`, pulls no further items from the source (exactly k
pulls, whatever remains in the source), and returns the sink's error
tagged `SinkError` (new driver) / `Downstream` (old driver). -/
theorem claim_C3 (τ ε ε2 ω σ : Type) (ts : List τ) (t : τ) (rest : List (Except ε τ))
    (k : TripleSink τ ε2 ω σ) (s : σ) (e : ε2)
    (hok : ∀ pre u post, ts = pre ++ u :: post → (k.feed (feedFold k s pre) u).2 = none)
    (hfail : (k.feed (feedFold k s ts) t).2 = some e) :
    in_sinkT (ts.map Except.ok ++ Except.ok t :: rest) k s =
      (pullFeedTrace ts ++ [Event.pull, Event.feedCall t],
        (k.feed (feedFold k s ts) t).1, Except.error (StreamError.SinkError e)) ∧
    (in_sinkT (ts.map Except.ok ++ Except.ok t :: rest) k s).1.countP isFeedEv =
      ts.length + 1 ∧
    (in_sinkT (ts.map Except.ok ++ Except.ok t :: rest) k s).1.countP isFinishEv = 0 ∧
    (in_sinkT (ts.map Except.ok ++ Except.ok t :: rest) k s).1.countP isPullEv =
      ts.length + 1 ∧
    in_sink (ts.map Except.ok ++ Except.ok t :: rest) k s =
      ((k.feed (feedFold k s ts) t).1, Except.error (StreamError.SinkError e)) ∧
    into_sink (ts.map Except.ok ++ Except.ok t :: rest) k s =
      ((k.feed (feedFold k s ts) t).1, Except.error (WhereFrom.Downstream e)) := by
  have hrun := in_sinkT_ok_run ts (Except.ok t :: rest) k s hok
  have h1 : in_sinkT (ts.map Except.ok ++ Except.ok t :: rest) k s =
      (pullFeedTrace ts ++ [Event.pull, Event.feedCall t],
        (k.feed (feedFold k s ts) t).1, Except.error (StreamError.SinkError e)) := by
    rw [hrun]
    simp only [in_sinkT]
    rw [hfail]
  have hsink : in_sink (ts.map Except.ok ++ Except.ok t :: rest) k s =
      ((k.feed (feedFold k s ts) t).1, Except.error (StreamError.SinkError e)) := by
    rw [← in_sinkT_sound, h1]
  refine ⟨h1, ?_, ?_, ?_, hsink, ?_⟩
  · rw [h1]
    simp [List.countP_append, (pullFeedTrace_counts ts).2.1, isFeedEv, List.countP_cons]
  · rw [h1]
    simp [List.countP_append, (pullFeedTrace_counts ts).1, isFinishEv, List.countP_cons]
  · rw [h1]
    simp [List.countP_append, (pullFeedTrace_counts ts).2.2, isPullEv, List.countP_cons]
  · rw [into_sink_eq, hsink]
    rfl

/-- Claim C3 witness: a sink that rejects its first feed makes the driver
stop after one feed, leave the rest of the source unpulled, and return
the sink-tagged error. -/
theorem claim_C3_witness :
    in_sink ([Except.ok 7, Except.ok 8] : List (Except Unit Nat)) alwaysFailSink () =
      ((), Except.error (StreamError.SinkError ())) := by
  have h := claim_C3 Nat Unit Unit Unit Unit [] 7 [Except.ok 8] alwaysFailSink () ()
    (by intro pre u post hsplit; cases pre <;> simp at hsplit) rfl
  exact h.2.2.2.2.1.trans rfl

/-- Claim C4: both generations of the plain-enumeration adapter wrap
every item in `Ok`; the new generation's source error type is the empty
type (`Infallible`), so its runs can never produce a source-tagged error;
runs over `Ok`-wrapped items never produce a source-tagged error in
general; and draining a wrapped sequence into the no-op sink always
succeeds (both generations). -/
theorem claim_C4 (τ ε2 ω σ : Type) (l : List τ) (k : TripleSink τ ε2 ω σ) (s : σ) :
    as_triple_source l = l.map Except.ok ∧
    wrap_as_oks l = l.map Except.ok ∧
    isSourceErr (in_sink (as_triple_source l) k s).2 = false ∧
    isSourceErr (in_sink (wrap_as_oks l) k s).2 = false ∧
    in_sink (as_triple_source l) unitSink () = ((), Except.ok ()) ∧
    into_sink (wrap_as_oks l) unitSink0 () = ((), Except.ok ()) :=
  ⟨rfl, rfl, isSourceErr_empty ε2 ω (in_sink (as_triple_source l) k s).2,
    in_sink_ok_items_no_source τ Unit ε2 ω σ l k s,
    unit_run τ Empty l, unit0_run τ Unit l⟩

/-- Claim C5: feeding any finite sequence of triples through the no-op
sink via either generation of the driver succeeds with the unit outcome,
and the no-op sink's `feed` and `finish` never return an error, for any
triple and any state. -/
theorem claim_C5 (τ ε : Type) (ts : List τ) (t : τ) (u : Unit) :
    in_sink (ts.map Except.ok : List (Except ε τ)) unitSink () = ((), Except.ok ()) ∧
    into_sink (ts.map Except.ok : List (Except ε τ)) unitSink0 () = ((), Except.ok ()) ∧
    unitSink.feed u t = ((), none) ∧
    (unitSink : TripleSink τ Empty Unit Unit).finish u = ((), Except.ok ()) ∧
    unitSink0.feed u t = ((), none) ∧
    (unitSink0 : TripleSink τ Unit Unit Unit).finish u = ((), Except.ok ()) :=
  ⟨unit_run τ ε ts, unit0_run τ ε ts, rfl, rfl, rfl, rfl⟩

/-- Claim C6: in every run of either driver, `finish` is called at most
once, no event (in particular no `feed`) follows a `finish` call, and a
`finish` call happens only after the source has been fully drained (all
items pulled, plus the exhaustion pull). -/
theorem claim_C6 (τ ε ε2 ω σ : Type) (items : List (Except ε τ))
    (k : TripleSink τ ε2 ω σ) (s : σ) :
    driverInvariant items.length (in_sinkT items k s).1 = true ∧
    driverInvariant items.length (into_sinkT items k s).1 = true := by
  refine ⟨in_sinkT_invariant items k s, ?_⟩
  rw [into_sinkT_trace_eq]
  exact in_sinkT_invariant items k s

/-- Claim C7: the unwrap-expect-source conversion (code:
`unwrap_downstream`, per the spec "return the source error, panicking if
the tagged error was actually sink-originated") keeps `Ok` values
unchanged, returns the source error on an `Upstream` tag, and panics
(modelled as `none`) on a `Downstream` tag; its mirror (code:
`unwrap_upstream`) keeps `Ok`, returns the sink error on a `Downstream`
tag, and panics on an `Upstream` tag. -/
theorem claim_C7 (T U D : Type) (v : T) (u : U) (d : D) :
    unwrap_downstream (Except.ok v : Except (WhereFrom U D) T) = some (Except.ok v) ∧
    unwrap_downstream (Except.error (WhereFrom.Upstream u) : Except (WhereFrom U D) T) =
      some (Except.error u) ∧
    unwrap_downstream (Except.error (WhereFrom.Downstream d) : Except (WhereFrom U D) T) =
      none ∧
    unwrap_upstream (Except.ok v : Except (WhereFrom U D) T) = some (Except.ok v) ∧
    unwrap_upstream (Except.error (WhereFrom.Downstream d) : Except (WhereFrom U D) T) =
      some (Except.error d) ∧
    unwrap_upstream (Except.error (WhereFrom.Upstream u) : Except (WhereFrom U D) T) =
      none :=
  ⟨rfl, rfl, rfl, rfl, rfl, rfl⟩

/-- Claim C8: `as_upstream`, `as_downstream`, and `map_err` with the
`SourceError` / `SinkError` constructors are the identity on `Ok` values,
and wrap an `Err` in exactly the `Upstream`/`SourceError` variant or the
`Downstream`/`SinkError` variant respectively. -/
theorem claim_C8 (T E F : Type) (v : T) (e : E) (f : F) :
    as_upstream (Except.ok v : Except E T) = (Except.ok v : Except (WhereFrom E F) T) ∧
    as_upstream (Except.error e : Except E T) =
      (Except.error (WhereFrom.Upstream e) : Except (WhereFrom E F) T) ∧
    as_downstream (Except.ok v : Except F T) = (Except.ok v : Except (WhereFrom E F) T) ∧
    as_downstream (Except.error f : Except F T) =
      (Except.error (WhereFrom.Downstream f) : Except (WhereFrom E F) T) ∧
    map_err StreamError.SourceError (Except.ok v : Except E T) =
      (Except.ok v : Except (StreamError E F) T) ∧
    map_err StreamError.SourceError (Except.error e : Except E T) =
      (Except.error (StreamError.SourceError e) : Except (StreamError E F) T) ∧
    map_err StreamError.SinkError (Except.ok v : Except F T) =
      (Except.ok v : Except (StreamError E F) T) ∧
    map_err StreamError.SinkError (Except.error f : Except F T) =
      (Except.error (StreamError.SinkError f) : Except (StreamError E F) T) :=
  ⟨rfl, rfl, rfl, rfl, rfl, rfl, rfl, rfl⟩

/-- Claim C9: draining a source into a mutable graph (`in_graph` /
`into_graph`) is exactly draining it into the sink obtained from the
graph's inserter (`in_sink` / `into_sink` applied to the inserter with a
zero initial count), including the count outcome and any
provenance-tagged error; in both the code and this embedding the graph
method is defined as that delegation. -/
theorem claim_C9 (τ ε ε2 γ : Type) (items : List (Except ε τ)) (G : MutableGraph τ γ ε2)
    (g : γ) :
    in_graph items G g = in_sink items (inserter G) (g, 0) ∧
    into_graph items G g = into_sink items (inserter G) (g, 0) :=
  ⟨rfl, rfl⟩

/-- Claim C10: the two generations of the driver are behaviourally
equivalent: on the same items, sink and initial state they produce the
same event trace (hence the same feed calls in the same order), the same
final sink state, and the same result up to renaming the
`Upstream`/`Downstream` wrapper variants to `SourceError`/`SinkError`. -/
theorem claim_C10 (τ ε ε2 ω σ : Type) (items : List (Except ε τ))
    (k : TripleSink τ ε2 ω σ) (s : σ) :
    (into_sinkT items k s).1 = (in_sinkT items k s).1 ∧
    (into_sink items k s).1 = (in_sink items k s).1 ∧
    map_err streamErrorOfWhereFrom (into_sink items k s).2 = (in_sink items k s).2 :=
  ⟨into_sinkT_trace_eq items k s, (into_sink_eq_rename items k s).1,
    (into_sink_eq_rename items k s).2⟩

end Sophia
